import Mathlib

/-!
Shallow embedding of the stroke-to-shape recognition engine of the
`boardly` repository (`src/utils/geometry.ts`, types from `src/types.ts`).

Coordinates are modelled as real numbers; JavaScript's `Math.hypot`,
`Math.sqrt` and `Math.pow` become `Real.sqrt` and `(· ^ 2)`.  The
divisions reachable from `detectShape` are guarded in the source
(`meanRadius > 0`, `boxArea > 0`), so real division is faithful there;
the one unguarded division, in the CIRCLE hit test, is embedded with an
explicit zero-radius case reproducing the float outcome (`NaN`/`Infinity`
compares `≤ 1` as false).  Arrays become lists, and the one piece of stateful
code (`resample`, which splices interpolated points into the array it is
handed) is embedded in state-passing style: `resampleRun` returns both
the list of emitted points and the final contents of the traversed array.
-/

namespace Boardly

/-- `Point` from `src/types.ts` (lines 19-22). -/
structure Point where
  x : ℝ
  y : ℝ

instance : Inhabited Point := ⟨⟨0, 0⟩⟩

theorem Point.ext_iff' (p q : Point) : p = q ↔ p.x = q.x ∧ p.y = q.y := by
  cases p; cases q; simp

/-- `ShapeType` from `src/types.ts` (lines 8-17). -/
inductive ShapeType where
  | FREEHAND
  | ERASER
  | LINE
  | SQUARE
  | CIRCLE
  | TRIANGLE
  | TEXT
  | IMAGE
deriving DecidableEq, Repr

/-- Bounding box record returned by `getBoundingBox`. -/
structure BBox where
  x : ℝ
  y : ℝ
  width : ℝ
  height : ℝ

noncomputable section

/-- `getBoundingBox` (geometry.ts lines 3-24).  The source seeds the
folds with `±Infinity` and runs over the whole list, which on a nonempty
list is the same as folding over the tail seeded with the first point. -/
def getBoundingBox (points : List Point) : BBox :=
  match points with
  | [] => ⟨0, 0, 0, 0⟩
  | p :: ps =>
    let minX := ps.foldl (fun m q => min m q.x) p.x
    let minY := ps.foldl (fun m q => min m q.y) p.y
    let maxX := ps.foldl (fun m q => max m q.x) p.x
    let maxY := ps.foldl (fun m q => max m q.y) p.y
    ⟨minX, minY, maxX - minX, maxY - minY⟩

/-- `distance` (geometry.ts line 26): `Math.hypot(p1.x - p2.x, p1.y - p2.y)`. -/
def distance (p1 p2 : Point) : ℝ :=
  Real.sqrt ((p1.x - p2.x) ^ 2 + (p1.y - p2.y) ^ 2)

/-- `getPathLength` (geometry.ts lines 28-34): sum of consecutive distances. -/
def getPathLength : List Point → ℝ
  | [] => 0
  | [_] => 0
  | p :: q :: rest => distance p q + getPathLength (q :: rest)

/-- Main loop of `resample` (geometry.ts lines 43-58), in state-passing
style.  `cd` is `currentDist`, `prev` is `pt1`, `l` holds the points not
yet traversed.  The first component of the result is what the loop pushes
onto `newPoints`; the second is the final contents of the traversed array
after position of `prev` (the source splices each interpolated point `q`
into the array it is iterating and continues from `q`).  The source loop
terminates only for positive spacing, which `detectShape` guarantees
(`spacing = max(5, diag / 40)`); `hs` records that. -/
def resampleAux (spacing : ℝ) (hs : 0 < spacing) :
    ℝ → Point → List Point → List Point × List Point
  | _, _, [] => ([], [])
  | cd, prev, p :: rest =>
    let d := distance prev p
    if spacing ≤ cd + d then
      let t := (spacing - cd) / d
      let q : Point := ⟨prev.x + t * (p.x - prev.x), prev.y + t * (p.y - prev.y)⟩
      let res := resampleAux spacing hs 0 q (p :: rest)
      (q :: res.1, q :: res.2)
    else
      let res := resampleAux spacing hs (cd + d) p rest
      (res.1, p :: res.2)
termination_by cd prev l => (⌊(cd + getPathLength (prev :: l)) / spacing⌋₊, l.length)
decreasing_by
· -- interpolation branch: the walked-but-unemitted path length drops by `spacing`
  rename_i hcond
  simp_wf
  apply Prod.Lex.left
  have hPL : ∀ (l : List Point) (a : Point), 0 ≤ getPathLength (a :: l) := by
    intro l
    induction l with
    | nil => intro _; simp [getPathLength]
    | cons b bs ih =>
      intro a
      have h1 := ih b
      have h2 : 0 ≤ distance a b := Real.sqrt_nonneg _
      show 0 ≤ distance a b + getPathLength (b :: bs)
      linarith
  have hd : 0 ≤ distance prev p := Real.sqrt_nonneg _
  set Q : Point := ⟨prev.x + (spacing - cd) / distance prev p * (p.x - prev.x),
      prev.y + (spacing - cd) / distance prev p * (p.y - prev.y)⟩ with hQdef
  have hQP : distance Q p + spacing ≤ cd + distance prev p := by
    rcases eq_or_lt_of_le hd with hd0 | hdpos
    · have hq : Q = prev := by
        rw [hQdef, ← hd0]
        simp [Point.ext_iff']
      have hcond' : spacing ≤ cd + distance prev p := hcond
      rw [hq, ← hd0]
      rw [← hd0] at hcond'
      linarith
    · have ht1 : (spacing - cd) / distance prev p ≤ 1 := by
        rw [div_le_one hdpos]
        linarith
      have hqp : distance Q p = distance prev p - (spacing - cd) := by
        show Real.sqrt _ = _
        have hxx : (Q.x - p.x) ^ 2 + (Q.y - p.y) ^ 2 =
            (1 - (spacing - cd) / distance prev p) ^ 2 *
              ((prev.x - p.x) ^ 2 + (prev.y - p.y) ^ 2) := by
          rw [hQdef]
          ring
        rw [hxx, Real.sqrt_mul (sq_nonneg _), Real.sqrt_sq_eq_abs,
          abs_of_nonneg (by linarith)]
        have hs2 : Real.sqrt ((prev.x - p.x) ^ 2 + (prev.y - p.y) ^ 2) =
            distance prev p := rfl
        rw [hs2]
        field_simp
      linarith
  have hexp : getPathLength (Q :: p :: rest) = distance Q p + getPathLength (p :: rest) := rfl
  have hexp2 : getPathLength (prev :: p :: rest) =
      distance prev p + getPathLength (p :: rest) := rfl
  have hA : 0 ≤ getPathLength (Q :: p :: rest) := hPL _ _
  have hkey : getPathLength (Q :: p :: rest) + spacing ≤
      cd + getPathLength (prev :: p :: rest) := by
    rw [hexp, hexp2]
    have := hPL (p :: rest) Q
    linarith
  have hfl : ⌊getPathLength (Q :: p :: rest) / spacing⌋₊ <
      ⌊(getPathLength (Q :: p :: rest) + spacing) / spacing⌋₊ := by
    have heq : (getPathLength (Q :: p :: rest) + spacing) / spacing =
        getPathLength (Q :: p :: rest) / spacing + 1 := by
      field_simp
    rw [heq, Nat.floor_add_one (div_nonneg hA hs.le)]
    omega
  have hmono : ⌊(getPathLength (Q :: p :: rest) + spacing) / spacing⌋₊ ≤
      ⌊(cd + getPathLength (prev :: p :: rest)) / spacing⌋₊ := by
    apply Nat.floor_le_floor
    apply div_le_div_of_nonneg_right hkey hs.le
  exact lt_of_lt_of_le hfl hmono
· -- skip branch: the walked path length is unchanged and the list shrinks
  simp_wf
  show Prod.Lex _ _ (⌊(cd + distance prev p + getPathLength (p :: rest)) / spacing⌋₊, rest.length)
      (⌊(cd + (distance prev p + getPathLength (p :: rest))) / spacing⌋₊, rest.length + 1)
  have hassoc : cd + (distance prev p + getPathLength (p :: rest)) =
      cd + distance prev p + getPathLength (p :: rest) := by ring
  rw [hassoc]
  exact Prod.Lex.right _ (by omega)

/-- `resample` (geometry.ts lines 37-60), state-passing version.  Returns
the emitted points (`newPoints`) together with the final contents of the
array that was passed in (which the source mutates via `splice`).  For
fewer than 2 points the source returns the input untouched.  The source
loop never terminates for `spacing ≤ 0` (each splice grows the array as
fast as the index advances); the embedding returns the input in that
case, which is irrelevant: the only call site passes `max 5 _`. -/
def resampleRun (points : List Point) (spacing : ℝ) : List Point × List Point :=
  if points.length < 2 then (points, points)
  else if hs : 0 < spacing then
    match points with
    | [] => (points, points)
    | p :: ps =>
      let res := resampleAux spacing hs 0 p ps
      (p :: res.1, p :: res.2)
  else (points, points)

/-- The value `resample` returns to its caller (the `newPoints` array). -/
def resample (points : List Point) (spacing : ℝ) : List Point :=
  (resampleRun points spacing).1

/-- The straw value at index `i` (geometry.ts line 71):
`distance(points[i - W], points[i + W])` with `W = 3`.  The source only
reads indices in `[W, length - W)`; out-of-range reads never occur on the
indices used below. -/
def straws (points : List Point) (i : ℕ) : ℝ :=
  distance (points.getD (i - 3) default) (points.getD (i + 3) default)

/-- `getCorners` (geometry.ts lines 63-100): ShortStraw corner detection.
Local minima of the straw values over `i ∈ [W+1, length - W - 1)` are kept
when their straw is below `0.95 ×` the window arc `2·W·avgSpacing`. -/
def getCorners (points : List Point) : List ℕ :=
  if points.length < 10 then []
  else
    let localMinima := (List.range' 4 (points.length - 8)).filter
      (fun i => decide (straws points i < straws points (i - 1) ∧
        straws points i < straws points (i + 1)))
    let avgSpacing := getPathLength points / ((points.length : ℝ) - 1)
    let windowArc := 2 * 3 * avgSpacing
    localMinima.filter (fun i => decide (straws points i < windowArc * 0.95))

/-- `distToSegment` (geometry.ts lines 103-109). -/
def distToSegment (p v w : Point) : ℝ :=
  let l2 := distance v w ^ 2
  if l2 = 0 then distance p v
  else
    let t0 := ((p.x - v.x) * (w.x - v.x) + (p.y - v.y) * (w.y - v.y)) / l2
    let t := max 0 (min 1 t0)
    distance p ⟨v.x + t * (w.x - v.x), v.y + t * (w.y - v.y)⟩

/-- The `forEach` max-search pattern of `getTriangleVertices`
(geometry.ts lines 122-144): start from `points[0]` and `maxD = -1`,
replace the best point whenever a strictly larger score is seen. -/
def farthestBy (points : List Point) (score : Point → ℝ) : Point :=
  (points.foldl
    (fun best q => if best.2 < score q then (q, score q) else best)
    (points.headD default, -1)).1

/-- `getTriangleVertices` (geometry.ts lines 112-149): centroid, then the
greedy farthest-point searches P1, P2, P3. -/
def getTriangleVertices (points : List Point) : List Point :=
  if points.length < 3 then points
  else
    let n : ℝ := points.length
    let center : Point := ⟨(points.map (·.x)).sum / n, (points.map (·.y)).sum / n⟩
    let p1 := farthestBy points (fun p => distance p center)
    let p2 := farthestBy points (fun p => distance p p1)
    let p3 := farthestBy points (fun p => distToSegment p p1 p2)
    [p1, p2, p3]

/-- `getPolygonArea` (geometry.ts lines 247-255): shoelace sum with
wrap-around `j = (i + 1) % n`, then `|area / 2|`. -/
def getPolygonArea (points : List Point) : ℝ :=
  let n := points.length
  let area := ((List.range n).map (fun i =>
    (points.getD i default).x * (points.getD ((i + 1) % n) default).y -
      (points.getD ((i + 1) % n) default).x * (points.getD i default).y)).sum
  |area / 2|

/-- The adjacent-corner merge of `detectShape` (geometry.ts lines 181-188):
keep `corners[0]`, then keep `corners[i]` only when
`corners[i] - corners[i-1] > 3` (comparison with the previous raw corner,
not the previous kept one). -/
def filterAdjacent (corners : List ℕ) : List ℕ :=
  match corners with
  | [] => []
  | c :: cs =>
    c :: ((cs.zip corners).filterMap
      (fun pr => if (3 : ℤ) < (pr.1 : ℤ) - (pr.2 : ℤ) then some pr.1 else none))

/-- The wrap-around drop of `detectShape` (geometry.ts lines 189-195):
with more than one corner, drop the last one when
`(resampledLength - last) + first < 4`. -/
def dropWrap (resampledLength : ℕ) (corners : List ℕ) : List ℕ :=
  if 1 < corners.length then
    if ((resampledLength : ℤ) - (corners.getLastD 0 : ℤ)) + (corners.headD 0 : ℤ) < 4 then
      corners.dropLast
    else corners
  else corners

/-- `radiusRatio` of the fallback stage (geometry.ts lines 214-219):
coefficient of variation of the per-point distances from the bounding-box
center, with the `meanRadius > 0 ? stdDev / meanRadius : 1` guard. -/
def radiusRatio (points : List Point) : ℝ :=
  let bbox := getBoundingBox points
  let center : Point := ⟨bbox.x + bbox.width / 2, bbox.y + bbox.height / 2⟩
  let radii := points.map (fun p => distance p center)
  let meanRadius := radii.sum / (radii.length : ℝ)
  let variance := (radii.map (fun r => (r - meanRadius) ^ 2)).sum / (radii.length : ℝ)
  let stdDev := Real.sqrt variance
  if 0 < meanRadius then stdDev / meanRadius else 1

/-- `areaRatio` of the fallback stage (geometry.ts lines 221-223):
`|polygonArea|` over the bounding-box area, with the
`boxArea > 0 ? polyArea / boxArea : 0` guard. -/
def areaRatio (points : List Point) : ℝ :=
  let bbox := getBoundingBox points
  let polyArea := |getPolygonArea points|
  let boxArea := bbox.width * bbox.height
  if 0 < boxArea then polyArea / boxArea else 0

/-- The verdict record `{ type: ShapeType, points?: Point[] }` returned by
`detectShape` (geometry.ts line 151). -/
structure DetectResult where
  type : ShapeType
  points : Option (List Point) := none

/-- `detectShape` (geometry.ts lines 151-245) in state-passing form.  The
second component is the contents of the caller's `points` array when the
call returns: the function reads `points` but only ever splices into the
local copy `closedPoints = [...points]`, whose post-`resample` contents
(second component of `resampleRun`) it discards. -/
def detectShapeState (points : List Point) : Option DetectResult × List Point :=
  if points.length < 10 then (none, points)
  else
    let len := getPathLength points
    let dist := distance (points.headD default) (points.getD (points.length - 1) default)
    let bbox := getBoundingBox points
    if len * 0.85 < dist then (some ⟨ShapeType.LINE, none⟩, points)
    else if len * 0.3 < dist then (none, points)
    else
      let diag := Real.sqrt (bbox.width ^ 2 + bbox.height ^ 2)
      let spacing := max 5 (diag / 40)
      let closedPoints := points ++ [points.headD default]
      let resampled := resample closedPoints spacing
      let cleanCorners := dropWrap resampled.length (filterAdjacent (getCorners resampled))
      let cornerCount := cleanCorners.length
      if cornerCount = 3 then
        (some ⟨ShapeType.TRIANGLE, some (cleanCorners.map (fun i => resampled.getD i default))⟩,
          points)
      else if cornerCount = 4 then (some ⟨ShapeType.SQUARE, none⟩, points)
      else if cornerCount = 0 ∧ radiusRatio points < 0.25 then
        (some ⟨ShapeType.CIRCLE, none⟩, points)
      else if radiusRatio points < 0.20 then (some ⟨ShapeType.CIRCLE, none⟩, points)
      else if 0.80 < areaRatio points then (some ⟨ShapeType.SQUARE, none⟩, points)
      else if areaRatio points < 0.65 then
        (some ⟨ShapeType.TRIANGLE, some (getTriangleVertices resampled)⟩, points)
      else if cornerCount = 5 then (some ⟨ShapeType.SQUARE, none⟩, points)
      else (some ⟨ShapeType.SQUARE, none⟩, points)

/-- `detectShape`'s return value. -/
def detectShape (points : List Point) : Option DetectResult :=
  (detectShapeState points).1

/-- `BoardElement` (src/types.ts lines 24-68), restricted to the fields
`isPointNearElement` reads.  `path` covers `PathElement` (FREEHAND or
ERASER tag); `shape` covers `ShapeElement` (SQUARE, CIRCLE or TRIANGLE
tag, with the optional stored triangle vertices). -/
inductive BoardElement where
  | path (ty : ShapeType) (points : List Point)
  | line (start stop : Point)
  | shape (ty : ShapeType) (x y width height : ℝ) (points : Option (List Point))
  | text (x y : ℝ) (textLength : ℕ) (fontSize : ℝ)
  | image (x y width height : ℝ)

/-- The `sign` helper of the TRIANGLE case (geometry.ts line 295). -/
def triSign (p1 p2 p3 : Point) : ℝ :=
  (p1.x - p3.x) * (p2.y - p3.y) - (p2.x - p3.x) * (p1.y - p3.y)

/-- `isPointNearElement` (geometry.ts lines 257-314).  The `switch` has
cases for FREEHAND, LINE, SQUARE/IMAGE, CIRCLE, TRIANGLE and TEXT; every
other tag (in particular ERASER) falls through to `default: return false`. -/
def isPointNearElement (element : BoardElement) (point : Point) (threshold : ℝ) : Bool :=
  match element with
  | .path ty pts =>
    if ty = ShapeType.FREEHAND then
      (List.range (pts.length - 1)).any (fun i =>
        decide (distToSegment point (pts.getD i default) (pts.getD (i + 1) default) < threshold))
    else false
  | .line s e => decide (distToSegment point s e < threshold)
  | .shape ty x y w h stored =>
    if ty = ShapeType.SQUARE then
      decide (x ≤ point.x ∧ point.x ≤ x + w ∧ y ≤ point.y ∧ point.y ≤ y + h)
    else if ty = ShapeType.CIRCLE then
      let rx := w / 2
      let ry := h / 2
      let cx := x + rx
      let cy := y + ry
      -- In the source's float semantics, a zero radius makes its term
      -- `NaN` (0/0) or `Infinity` (x/0); either way the whole sum compares
      -- `≤ 1` as false.  With both radii nonzero the arithmetic is finite
      -- and agrees with real division.
      if rx = 0 ∨ ry = 0 then false
      else decide ((point.x - cx) ^ 2 / rx ^ 2 + (point.y - cy) ^ 2 / ry ^ 2 ≤ 1)
    else if ty = ShapeType.TRIANGLE then
      let vs : Point × Point × Point :=
        match stored with
        | some [a, b, c] => (a, b, c)
        | _ => (⟨x + w / 2, y⟩, ⟨x, y + h⟩, ⟨x + w, y + h⟩)
      let d1 := triSign point vs.1 vs.2.1
      let d2 := triSign point vs.2.1 vs.2.2
      let d3 := triSign point vs.2.2 vs.1
      let hasNeg := d1 < 0 ∨ d2 < 0 ∨ d3 < 0
      let hasPos := 0 < d1 ∨ 0 < d2 ∨ 0 < d3
      decide (¬(hasNeg ∧ hasPos))
    else false
  | .text x y textLength fontSize =>
    let estimatedHeight := fontSize * 1.5
    let estimatedWidth := (textLength : ℝ) * fontSize * 0.6
    decide (x ≤ point.x ∧ point.x ≤ x + estimatedWidth ∧
      y - fontSize ≤ point.y ∧ point.y ≤ y + estimatedHeight / 2)
  | .image x y w h =>
    decide (x ≤ point.x ∧ point.x ≤ x + w ∧ y ≤ point.y ∧ point.y ≤ y + h)

/-- A straight 10-point stroke along the x-axis (concrete test input). -/
def lineStroke : List Point :=
  [⟨0, 0⟩, ⟨1, 0⟩, ⟨2, 0⟩, ⟨3, 0⟩, ⟨4, 0⟩, ⟨5, 0⟩, ⟨6, 0⟩, ⟨7, 0⟩, ⟨8, 0⟩, ⟨9, 0⟩]

/-- A 10-point stroke that doubles back: neither straight nor closed
(concrete test input). -/
def openStroke : List Point :=
  [⟨0, 0⟩, ⟨1, 0⟩, ⟨2, 0⟩, ⟨3, 0⟩, ⟨4, 0⟩, ⟨5, 0⟩, ⟨6, 0⟩, ⟨7, 0⟩, ⟨8, 0⟩, ⟨4, 0⟩]

/-- A 32-point trace of the square [0,40]², sampled every 5 units along
its perimeter, starting and ending mid-way along the bottom edge
(concrete test input). -/
def squareStroke : List Point :=
  [⟨20, 0⟩, ⟨25, 0⟩, ⟨30, 0⟩, ⟨35, 0⟩, ⟨40, 0⟩,
   ⟨40, 5⟩, ⟨40, 10⟩, ⟨40, 15⟩, ⟨40, 20⟩, ⟨40, 25⟩, ⟨40, 30⟩, ⟨40, 35⟩, ⟨40, 40⟩,
   ⟨35, 40⟩, ⟨30, 40⟩, ⟨25, 40⟩, ⟨20, 40⟩, ⟨15, 40⟩, ⟨10, 40⟩, ⟨5, 40⟩, ⟨0, 40⟩,
   ⟨0, 35⟩, ⟨0, 30⟩, ⟨0, 25⟩, ⟨0, 20⟩, ⟨0, 15⟩, ⟨0, 10⟩, ⟨0, 5⟩, ⟨0, 0⟩,
   ⟨5, 0⟩, ⟨10, 0⟩, ⟨15, 0⟩]

/-- `squareStroke` closed by appending its first point — the list
`detectShape` hands to the resampler for that stroke (concrete test
input).  Its 33 points are spaced exactly 5 apart along the square. -/
def squareLoop : List Point :=
  [⟨20, 0⟩, ⟨25, 0⟩, ⟨30, 0⟩, ⟨35, 0⟩, ⟨40, 0⟩,
   ⟨40, 5⟩, ⟨40, 10⟩, ⟨40, 15⟩, ⟨40, 20⟩, ⟨40, 25⟩, ⟨40, 30⟩, ⟨40, 35⟩, ⟨40, 40⟩,
   ⟨35, 40⟩, ⟨30, 40⟩, ⟨25, 40⟩, ⟨20, 40⟩, ⟨15, 40⟩, ⟨10, 40⟩, ⟨5, 40⟩, ⟨0, 40⟩,
   ⟨0, 35⟩, ⟨0, 30⟩, ⟨0, 25⟩, ⟨0, 20⟩, ⟨0, 15⟩, ⟨0, 10⟩, ⟨0, 5⟩, ⟨0, 0⟩,
   ⟨5, 0⟩, ⟨10, 0⟩, ⟨15, 0⟩, ⟨20, 0⟩]

/-! ## General lemmas about the embedded operations -/

theorem distance_self (p : Point) : distance p p = 0 := by
  simp [distance]

theorem distance_nonneg (p q : Point) : 0 ≤ distance p q :=
  Real.sqrt_nonneg _

theorem getPathLength_nonneg : ∀ (l : List Point), 0 ≤ getPathLength l
  | [] => le_refl 0
  | [_] => le_refl 0
  | p :: q :: rest => by
    have h1 := getPathLength_nonneg (q :: rest)
    have h2 := distance_nonneg p q
    show 0 ≤ distance p q + getPathLength (q :: rest)
    linarith

/-- Closed-form square roots of perfect squares, for concrete evaluation. -/
theorem sqrt_of_sq {x y : ℝ} (hy : 0 ≤ y) (h : y ^ 2 = x) : Real.sqrt x = y := by
  rw [← h]
  exact Real.sqrt_sq hy

theorem resampleAux_nil (spacing : ℝ) (hs : 0 < spacing) (cd : ℝ) (prev : Point) :
    resampleAux spacing hs cd prev [] = ([], []) := by
  unfold resampleAux
  rfl

theorem resampleAux_cons (spacing : ℝ) (hs : 0 < spacing) (cd : ℝ) (prev p : Point)
    (rest : List Point) :
    resampleAux spacing hs cd prev (p :: rest) =
      if spacing ≤ cd + distance prev p then
        ((⟨prev.x + (spacing - cd) / distance prev p * (p.x - prev.x),
            prev.y + (spacing - cd) / distance prev p * (p.y - prev.y)⟩ : Point) ::
          (resampleAux spacing hs 0
            ⟨prev.x + (spacing - cd) / distance prev p * (p.x - prev.x),
              prev.y + (spacing - cd) / distance prev p * (p.y - prev.y)⟩ (p :: rest)).1,
         (⟨prev.x + (spacing - cd) / distance prev p * (p.x - prev.x),
            prev.y + (spacing - cd) / distance prev p * (p.y - prev.y)⟩ : Point) ::
          (resampleAux spacing hs 0
            ⟨prev.x + (spacing - cd) / distance prev p * (p.x - prev.x),
              prev.y + (spacing - cd) / distance prev p * (p.y - prev.y)⟩ (p :: rest)).2)
      else
        ((resampleAux spacing hs (cd + distance prev p) p rest).1,
          p :: (resampleAux spacing hs (cd + distance prev p) p rest).2) := by
  rw [resampleAux]

/-- On a polyline whose consecutive points are already exactly `spacing`
apart, the resampling loop re-emits exactly the remaining points. -/
theorem resampleAux_uniform (spacing : ℝ) (hs : 0 < spacing) :
    ∀ (l : List Point) (prev : Point),
    List.Chain' (fun a b => distance a b = spacing) (prev :: l) →
    (resampleAux spacing hs 0 prev l).1 = l := by
  intro l
  induction l with
  | nil =>
    intro prev _
    rw [resampleAux_nil]
  | cons p rest ih =>
    intro prev h
    obtain ⟨hd, hch⟩ := List.chain'_cons.mp h
    rw [resampleAux_cons, if_pos (by rw [hd]; linarith)]
    show (⟨prev.x + (spacing - 0) / distance prev p * (p.x - prev.x),
        prev.y + (spacing - 0) / distance prev p * (p.y - prev.y)⟩ : Point) ::
        (resampleAux spacing hs 0
          ⟨prev.x + (spacing - 0) / distance prev p * (p.x - prev.x),
            prev.y + (spacing - 0) / distance prev p * (p.y - prev.y)⟩ (p :: rest)).1 =
        p :: rest
    have hq : (⟨prev.x + (spacing - 0) / distance prev p * (p.x - prev.x),
        prev.y + (spacing - 0) / distance prev p * (p.y - prev.y)⟩ : Point) = p := by
      rw [hd]
      have h1 : (spacing - 0) / spacing = 1 := by field_simp
      rw [h1, Point.ext_iff']
      constructor <;> (simp only []; ring)
    rw [hq]
    congr 1
    rw [resampleAux_cons]
    have hpp : distance p p = 0 := distance_self p
    rw [if_neg (not_le.mpr (by rw [hpp]; linarith))]
    show (resampleAux spacing hs (0 + distance p p) p rest).1 = rest
    have h00 : (0 : ℝ) + distance p p = 0 := by rw [hpp]; ring
    rw [h00]
    exact ih p hch

/-- `resample` on a polyline already at uniform `spacing` is the identity. -/
theorem resample_uniform (spacing : ℝ) (hs : 0 < spacing) (p : Point) (ps : List Point)
    (h2 : ¬(p :: ps).length < 2)
    (h : List.Chain' (fun a b => distance a b = spacing) (p :: ps)) :
    resample (p :: ps) spacing = p :: ps := by
  unfold resample resampleRun
  rw [if_neg h2, dif_pos hs]
  show p :: (resampleAux spacing hs 0 p ps).1 = p :: ps
  rw [resampleAux_uniform spacing hs ps p h]

/-- The loop never emits anything when every segment is degenerate. -/
theorem resampleAux_replicate (spacing : ℝ) (hs : 0 < spacing) (p : Point) :
    ∀ n : ℕ, (resampleAux spacing hs 0 p (List.replicate n p)).1 = [] := by
  intro n
  induction n with
  | zero => rw [List.replicate_zero, resampleAux_nil]
  | succ k ih =>
    rw [List.replicate_succ, resampleAux_cons]
    have hpp : distance p p = 0 := distance_self p
    rw [if_neg (not_le.mpr (by rw [hpp]; linarith))]
    show (resampleAux spacing hs (0 + distance p p) p (List.replicate k p)).1 = []
    have h00 : (0 : ℝ) + distance p p = 0 := by rw [hpp]; ring
    rw [h00]
    exact ih

theorem resample_replicate (spacing : ℝ) (hs : 0 < spacing) (p : Point) (n : ℕ)
    (h2 : ¬(n + 1) < 2) :
    resample (List.replicate (n + 1) p) spacing = [p] := by
  unfold resample resampleRun
  rw [List.replicate_succ]
  rw [if_neg (by simpa using h2), dif_pos hs]
  show p :: (resampleAux spacing hs 0 p (List.replicate n p)).1 = [p]
  rw [resampleAux_replicate spacing hs p n]

theorem getPathLength_uniform (s : ℝ) :
    ∀ (l : List Point) (a : Point),
    List.Chain' (fun u v => distance u v = s) (a :: l) →
    getPathLength (a :: l) = l.length * s := by
  intro l
  induction l with
  | nil => intro a _; simp [getPathLength]
  | cons b bs ih =>
    intro a h
    obtain ⟨hd, hch⟩ := List.chain'_cons.mp h
    show distance a b + getPathLength (b :: bs) = _
    rw [hd, ih b hch]
    simp only [List.length_cons]
    push_cast
    ring

theorem getPathLength_replicate : ∀ (n : ℕ) (p : Point),
    getPathLength (List.replicate n p) = 0
  | 0, _ => rfl
  | 1, _ => rfl
  | (n + 2), p => by
    show distance p p + getPathLength (List.replicate (n + 1) p) = 0
    rw [getPathLength_replicate (n + 1) p, distance_self]
    ring

/-! ## Claim theorems -/

/-- C1: for every point sequence of fewer than 10 points, `detectShape`
returns the None verdict (`none`), regardless of the points' coordinates. -/
theorem detectShape_short_stroke_none (points : List Point) (h : points.length < 10) :
    detectShape points = none := by
  unfold detectShape detectShapeState
  rw [if_pos h]

/-- Witness for C1 at a concrete 9-point stroke. -/
theorem detectShape_short_stroke_none_witness :
    (List.replicate 9 (⟨3, 4⟩ : Point)).length < 10 ∧
      detectShape (List.replicate 9 (⟨3, 4⟩ : Point)) = none :=
  ⟨by simp, detectShape_short_stroke_none _ (by simp)⟩

/-- C5: `detectShape` never mutates its input.  In the state-passing
embedding, the second component of `detectShapeState` is the contents of
the caller's `points` array when the call returns; it equals the input in
every branch, because the resampler's splicing is applied only to the
internal copy `closedPoints` (whose mutated contents,
`(resampleRun closedPoints spacing).2`, the function discards). -/
theorem detectShape_input_unchanged (points : List Point) :
    (detectShapeState points).2 = points ∧
      detectShape points = (detectShapeState points).1 := by
  constructor
  · unfold detectShapeState
    split
    · rfl
    try simp only []
    split
    · rfl
    split
    · rfl
    try simp only []
    split
    · rfl
    split
    · rfl
    split
    · rfl
    split
    · rfl
    split
    · rfl
    split
    · rfl
    split <;> rfl
  · rfl

/-- C10: for SQUARE, IMAGE, CIRCLE, TRIANGLE and TEXT elements the result
of `isPointNearElement` does not depend on the threshold argument. -/
theorem isPointNearElement_threshold_free :
    (∀ (ty : ShapeType) (x y w h : ℝ) (stored : Option (List Point)) (q : Point) (t₁ t₂ : ℝ),
      isPointNearElement (.shape ty x y w h stored) q t₁ =
        isPointNearElement (.shape ty x y w h stored) q t₂) ∧
    (∀ (x y w h : ℝ) (q : Point) (t₁ t₂ : ℝ),
      isPointNearElement (.image x y w h) q t₁ =
        isPointNearElement (.image x y w h) q t₂) ∧
    (∀ (x y : ℝ) (n : ℕ) (fs : ℝ) (q : Point) (t₁ t₂ : ℝ),
      isPointNearElement (.text x y n fs) q t₁ =
        isPointNearElement (.text x y n fs) q t₂) :=
  ⟨fun _ _ _ _ _ _ _ _ _ => rfl, fun _ _ _ _ _ _ _ => rfl, fun _ _ _ _ _ _ _ => rfl⟩

/-- C8 counterexample: a 2-point sequence is not returned unchanged by the
resampler; with points (0,0), (1,0) and spacing 5 the loop emits only the
start point. -/
theorem resample_two_points_changed :
    resample [(⟨0, 0⟩ : Point), ⟨1, 0⟩] 5 = [(⟨0, 0⟩ : Point)] ∧
      resample [(⟨0, 0⟩ : Point), ⟨1, 0⟩] 5 ≠ [(⟨0, 0⟩ : Point), ⟨1, 0⟩] := by
  have hd : distance (⟨0, 0⟩ : Point) ⟨1, 0⟩ = 1 := by
    unfold distance
    norm_num
  have h5 : (0 : ℝ) < 5 := by norm_num
  have heval : resample [(⟨0, 0⟩ : Point), ⟨1, 0⟩] 5 = [(⟨0, 0⟩ : Point)] := by
    unfold resample resampleRun
    rw [if_neg (by norm_num), dif_pos h5]
    show (⟨0, 0⟩ : Point) :: (resampleAux 5 h5 0 ⟨0, 0⟩ [⟨1, 0⟩]).1 = [(⟨0, 0⟩ : Point)]
    rw [resampleAux_cons, if_neg (by rw [hd]; norm_num), resampleAux_nil]
  refine ⟨heval, ?_⟩
  rw [heval]
  intro hcon
  simp at hcon

/-- C8 (amended): the resampler returns its input unchanged exactly for
inputs of fewer than 2 points (the source's `points.length < 2` guard),
for every spacing. -/
theorem resample_short_input_unchanged (points : List Point) (spacing : ℝ)
    (h : points.length < 2) : resample points spacing = points := by
  unfold resample resampleRun
  rw [if_pos h]

/-- Witness for the amended C8 at a concrete 1-point input. -/
theorem resample_short_input_unchanged_witness :
    ([(⟨5, 5⟩ : Point)]).length < 2 ∧ resample [(⟨5, 5⟩ : Point)] 3 = [(⟨5, 5⟩ : Point)] :=
  ⟨by simp, resample_short_input_unchanged _ 3 (by simp)⟩

/-- Square roots of concrete perfect squares used in evaluations. -/
theorem sqrt_25 : Real.sqrt 25 = 5 := sqrt_of_sq (by norm_num) (by norm_num)

theorem sqrt_100 : Real.sqrt 100 = 10 := sqrt_of_sq (by norm_num) (by norm_num)

theorem sqrt_16 : Real.sqrt 16 = 4 := sqrt_of_sq (by norm_num) (by norm_num)

theorem sqrt_81 : Real.sqrt 81 = 9 := sqrt_of_sq (by norm_num) (by norm_num)

theorem distance_mk (a b c d : ℝ) :
    distance ⟨a, b⟩ ⟨c, d⟩ = Real.sqrt ((a - c) ^ 2 + (b - d) ^ 2) := rfl

/-- C6 (amended): for every FREEHAND path element, `isPointNearElement`
returns true iff the query point is strictly within the threshold of some
constituent segment; for ERASER path elements it always returns false
(ERASER has no case in the source's `switch` and falls to the default). -/
theorem isPointNearElement_freehand_iff_eraser_false (pts : List Point) (q : Point) (t : ℝ) :
    (isPointNearElement (.path ShapeType.FREEHAND pts) q t = true ↔
      ∃ i, i < pts.length - 1 ∧
        distToSegment q (pts.getD i default) (pts.getD (i + 1) default) < t) ∧
    isPointNearElement (.path ShapeType.ERASER pts) q t = false := by
  constructor
  · simp [isPointNearElement, List.any_eq_true, List.mem_range]
  · rfl

/-- C6 counterexample: an ERASER path element through (0,0)-(10,0) is not
hit at (0,0) with threshold 10, although (0,0) lies on the segment. -/
theorem isPointNearElement_eraser_counterexample :
    distToSegment ⟨0, 0⟩ ⟨0, 0⟩ ⟨10, 0⟩ < 10 ∧
      isPointNearElement (.path ShapeType.ERASER [⟨0, 0⟩, ⟨10, 0⟩]) ⟨0, 0⟩ 10 = false := by
  constructor
  · norm_num [distToSegment, distance_mk, sqrt_100, min_def, max_def]
  · rfl

/-- C7 (amended): for CIRCLE elements with nonzero width and height the
hit test returns true exactly when the query point satisfies the
normalized ellipse inequality, and the element's own center is hit; for
positive width and height, any point at distance `10 × max(rx, ry)` from
the center is rejected.  CIRCLE elements with zero width or height always
test false: the source's division by zero yields `NaN` or `Infinity`,
whose `≤ 1` comparison fails — so the degenerate center is not hit. -/
theorem isPointNearElement_circle_spec (x y w h : ℝ) (stored : Option (List Point))
    (q : Point) (t : ℝ) :
    (w ≠ 0 → h ≠ 0 →
      (isPointNearElement (.shape ShapeType.CIRCLE x y w h stored) q t = true ↔
        (q.x - (x + w / 2)) ^ 2 / (w / 2) ^ 2 + (q.y - (y + h / 2)) ^ 2 / (h / 2) ^ 2 ≤ 1)) ∧
    (w ≠ 0 → h ≠ 0 →
      isPointNearElement (.shape ShapeType.CIRCLE x y w h stored) ⟨x + w / 2, y + h / 2⟩ t
        = true) ∧
    (0 < w → 0 < h → ∀ q2 : Point,
      distance q2 ⟨x + w / 2, y + h / 2⟩ = 10 * max (w / 2) (h / 2) →
      isPointNearElement (.shape ShapeType.CIRCLE x y w h stored) q2 t = false) ∧
    (w = 0 ∨ h = 0 →
      isPointNearElement (.shape ShapeType.CIRCLE x y w h stored) q t = false) := by
  refine ⟨?_, ?_, ?_, ?_⟩
  · intro hw hh
    simp [isPointNearElement, hw, hh]
  · intro hw hh
    simp [isPointNearElement, hw, hh]
  · intro hw hh q2 hdist
    have hrx : (0 : ℝ) < w / 2 := by linarith
    have hry : (0 : ℝ) < h / 2 := by linarith
    set M := max (w / 2) (h / 2) with hM
    have hMpos : 0 < M := lt_max_of_lt_left hrx
    have hsq : (q2.x - (x + w / 2)) ^ 2 + (q2.y - (y + h / 2)) ^ 2 = 100 * M ^ 2 := by
      have h0 : 0 ≤ (q2.x - (x + w / 2)) ^ 2 + (q2.y - (y + h / 2)) ^ 2 := by positivity
      have := Real.sq_sqrt h0
      rw [show Real.sqrt ((q2.x - (x + w / 2)) ^ 2 + (q2.y - (y + h / 2)) ^ 2)
          = distance q2 ⟨x + w / 2, y + h / 2⟩ from rfl, hdist] at this
      nlinarith [this]
    have hxM : (q2.x - (x + w / 2)) ^ 2 / M ^ 2 ≤ (q2.x - (x + w / 2)) ^ 2 / (w / 2) ^ 2 := by
      apply div_le_div_of_nonneg_left (by positivity) (by positivity)
      have : w / 2 ≤ M := le_max_left _ _
      nlinarith
    have hyM : (q2.y - (y + h / 2)) ^ 2 / M ^ 2 ≤ (q2.y - (y + h / 2)) ^ 2 / (h / 2) ^ 2 := by
      apply div_le_div_of_nonneg_left (by positivity) (by positivity)
      have : h / 2 ≤ M := le_max_right _ _
      nlinarith
    have hsum : (q2.x - (x + w / 2)) ^ 2 / M ^ 2 + (q2.y - (y + h / 2)) ^ 2 / M ^ 2 = 100 := by
      rw [div_add_div_same, hsq]
      field_simp
    have hgt : 1 < (q2.x - (x + w / 2)) ^ 2 / (w / 2) ^ 2 +
        (q2.y - (y + h / 2)) ^ 2 / (h / 2) ^ 2 := by linarith
    simp [isPointNearElement, hw.ne', hh.ne']
    linarith
  · intro hdeg
    simp only [isPointNearElement]
    simp
    intro hw hh
    rcases hdeg with h1 | h1
    · exact absurd h1 hw
    · exact absurd h1 hh

/-- Witness for the amended C7 on a concrete unit circle (center hit,
point at 10 × radius rejected) and a concrete zero-width circle (always
missed). -/
theorem isPointNearElement_circle_spec_witness :
    (2 : ℝ) ≠ 0 ∧ (0 : ℝ) < 2 ∧
      isPointNearElement (.shape ShapeType.CIRCLE 0 0 2 2 none) ⟨0 + 2 / 2, 0 + 2 / 2⟩ 7
        = true ∧
      distance ⟨11, 1⟩ (⟨0 + 2 / 2, 0 + 2 / 2⟩ : Point) = 10 * max ((2 : ℝ) / 2) (2 / 2) ∧
      isPointNearElement (.shape ShapeType.CIRCLE 0 0 2 2 none) ⟨11, 1⟩ 7 = false ∧
      isPointNearElement (.shape ShapeType.CIRCLE 0 0 0 2 none) ⟨5, 5⟩ 7 = false := by
  have hd : distance ⟨11, 1⟩ (⟨0 + 2 / 2, 0 + 2 / 2⟩ : Point) =
      10 * max ((2 : ℝ) / 2) (2 / 2) := by
    norm_num [distance_mk, sqrt_100]
  refine ⟨by norm_num, by norm_num, ?_, hd, ?_, ?_⟩
  · exact (isPointNearElement_circle_spec 0 0 2 2 none ⟨11, 1⟩ 7).2.1
      (by norm_num) (by norm_num)
  · exact (isPointNearElement_circle_spec 0 0 2 2 none ⟨11, 1⟩ 7).2.2.1
      (by norm_num) (by norm_num) ⟨11, 1⟩ hd
  · exact (isPointNearElement_circle_spec 0 0 0 2 none ⟨5, 5⟩ 7).2.2.2 (Or.inl rfl)

/-- C7 counterexample: on the degenerate CIRCLE element with zero width
and height, the element's own center satisfies the normalized ellipse
inequality (read with real division, where 0/0 = 0), yet the hit test
returns false — refuting both the claimed equivalence and the claim that
the center is always hit. -/
theorem isPointNearElement_circle_degenerate_counterexample :
    isPointNearElement (.shape ShapeType.CIRCLE 0 0 0 0 none) ⟨0 + 0 / 2, 0 + 0 / 2⟩ 10
      = false ∧
    ((⟨0 + 0 / 2, 0 + 0 / 2⟩ : Point).x - (0 + 0 / 2)) ^ 2 / ((0 : ℝ) / 2) ^ 2 +
      ((⟨0 + 0 / 2, 0 + 0 / 2⟩ : Point).y - (0 + 0 / 2)) ^ 2 / ((0 : ℝ) / 2) ^ 2 ≤ 1 := by
  constructor
  · simp [isPointNearElement]
  · norm_num

/-- C2: for every stroke of at least 10 points, with `len` the total path
length and `dist` the distance between first and last point: if
`dist > 0.85 × len` the classifier returns Line (independent of closure);
otherwise, if `dist > 0.3 × len`, it returns None. -/
theorem detectShape_line_and_closure_gates (points : List Point)
    (h10 : ¬points.length < 10) :
    (getPathLength points * 0.85 <
        distance (points.headD default) (points.getD (points.length - 1) default) →
      detectShape points = some ⟨ShapeType.LINE, none⟩) ∧
    (¬getPathLength points * 0.85 <
        distance (points.headD default) (points.getD (points.length - 1) default) →
      getPathLength points * 0.3 <
        distance (points.headD default) (points.getD (points.length - 1) default) →
      detectShape points = none) := by
  constructor
  · intro hline
    unfold detectShape detectShapeState
    rw [if_neg h10]
    simp only []
    rw [if_pos hline]
  · intro hnl hgap
    unfold detectShape detectShapeState
    rw [if_neg h10]
    simp only []
    rw [if_neg hnl, if_pos hgap]

/-- Witness for C2: a straight 10-point stroke classifies as Line, and a
10-point stroke that doubles back (dist = 4, len = 12) is rejected. -/
theorem detectShape_line_and_closure_gates_witness :
    detectShape lineStroke = some ⟨ShapeType.LINE, none⟩ ∧
      detectShape openStroke = none := by
  have hlenA : getPathLength lineStroke = 9 := by
    norm_num [getPathLength, lineStroke, distance_mk, Real.sqrt_one]
  have hdistA : distance (lineStroke.headD default)
      (lineStroke.getD (lineStroke.length - 1) default) = 9 := by
    show distance ⟨0, 0⟩ ⟨9, 0⟩ = 9
    norm_num [distance_mk, sqrt_81]
  have hlenB : getPathLength openStroke = 12 := by
    norm_num [getPathLength, openStroke, distance_mk, Real.sqrt_one, sqrt_16]
  have hdistB : distance (openStroke.headD default)
      (openStroke.getD (openStroke.length - 1) default) = 4 := by
    show distance ⟨0, 0⟩ ⟨4, 0⟩ = 4
    norm_num [distance_mk, sqrt_16]
  constructor
  · exact (detectShape_line_and_closure_gates lineStroke (by norm_num [lineStroke])).1
      (by rw [hlenA, hdistA]; norm_num)
  · exact (detectShape_line_and_closure_gates openStroke (by norm_num [openStroke])).2
      (by rw [hlenB, hdistB]; norm_num) (by rw [hlenB, hdistB]; norm_num)

/-! ## Evaluation on degenerate (constant) strokes -/

theorem foldl_min_x_replicate (p : Point) : ∀ k : ℕ,
    List.foldl (fun m q => min m q.x) p.x (List.replicate k p) = p.x := by
  intro k
  induction k with
  | zero => rfl
  | succ m ih =>
    rw [List.replicate_succ]
    show List.foldl (fun m q => min m q.x) (min p.x p.x) (List.replicate m p) = p.x
    rw [min_self]
    exact ih

theorem foldl_min_y_replicate (p : Point) : ∀ k : ℕ,
    List.foldl (fun m q => min m q.y) p.y (List.replicate k p) = p.y := by
  intro k
  induction k with
  | zero => rfl
  | succ m ih =>
    rw [List.replicate_succ]
    show List.foldl (fun m q => min m q.y) (min p.y p.y) (List.replicate m p) = p.y
    rw [min_self]
    exact ih

theorem foldl_max_x_replicate (p : Point) : ∀ k : ℕ,
    List.foldl (fun m q => max m q.x) p.x (List.replicate k p) = p.x := by
  intro k
  induction k with
  | zero => rfl
  | succ m ih =>
    rw [List.replicate_succ]
    show List.foldl (fun m q => max m q.x) (max p.x p.x) (List.replicate m p) = p.x
    rw [max_self]
    exact ih

theorem foldl_max_y_replicate (p : Point) : ∀ k : ℕ,
    List.foldl (fun m q => max m q.y) p.y (List.replicate k p) = p.y := by
  intro k
  induction k with
  | zero => rfl
  | succ m ih =>
    rw [List.replicate_succ]
    show List.foldl (fun m q => max m q.y) (max p.y p.y) (List.replicate m p) = p.y
    rw [max_self]
    exact ih

theorem getBoundingBox_replicate (k : ℕ) (p : Point) :
    getBoundingBox (List.replicate (k + 1) p) = ⟨p.x, p.y, 0, 0⟩ := by
  rw [List.replicate_succ]
  show getBoundingBox (p :: List.replicate k p) = _
  unfold getBoundingBox
  simp only []
  rw [foldl_min_x_replicate, foldl_min_y_replicate, foldl_max_x_replicate,
    foldl_max_y_replicate]
  simp

theorem radiusRatio_replicate (k : ℕ) (p : Point) :
    radiusRatio (List.replicate (k + 1) p) = 1 := by
  unfold radiusRatio
  rw [getBoundingBox_replicate]
  have hc : (⟨p.x, p.y⟩ : Point) = p := rfl
  simp [hc, List.map_replicate, distance_self, List.sum_replicate]

theorem areaRatio_replicate (k : ℕ) (p : Point) :
    areaRatio (List.replicate (k + 1) p) = 0 := by
  unfold areaRatio
  rw [getBoundingBox_replicate]
  simp

theorem getCorners_singleton (p : Point) : getCorners [p] = [] := by
  unfold getCorners
  rw [if_pos (by simp)]

theorem getTriangleVertices_short (l : List Point) (h : l.length < 3) :
    getTriangleVertices l = l := by
  unfold getTriangleVertices
  rw [if_pos h]

/-- C9: a stroke of 10 or more copies of one identical point passes the
gates (length and endpoint distance are 0), collapses to a single
resampled point, evaluates the guarded ratios to `radiusRatio = 1` and
`areaRatio = 0`, falls into the `areaRatio < 0.65` branch, and is
classified Triangle with an explicit vertex list containing exactly one
point — so a Triangle verdict does not always carry 3 vertices. -/
theorem detectShape_constant_stroke (p : Point) (n : ℕ) :
    getPathLength (List.replicate (n + 10) p) = 0 ∧
      resample (List.replicate (n + 10) p ++ [p]) 5 = [p] ∧
      radiusRatio (List.replicate (n + 10) p) = 1 ∧
      areaRatio (List.replicate (n + 10) p) = 0 ∧
      detectShape (List.replicate (n + 10) p) = some ⟨ShapeType.TRIANGLE, some [p]⟩ := by
  have h910 : n + 10 = n + 9 + 1 := by omega
  have hhead : (List.replicate (n + 10) p).headD default = p := by
    rw [h910, List.replicate_succ]
    rfl
  have hlast : (List.replicate (n + 10) p).getD
      ((List.replicate (n + 10) p).length - 1) default = p := by
    rw [List.getD_eq_getElem _ _ (by simp only [List.length_replicate]; omega)]
    simp
  have hdist : distance ((List.replicate (n + 10) p).headD default)
      ((List.replicate (n + 10) p).getD ((List.replicate (n + 10) p).length - 1) default)
      = 0 := by
    rw [hhead, hlast]
    exact distance_self p
  have hbb : getBoundingBox (List.replicate (n + 10) p) = ⟨p.x, p.y, 0, 0⟩ := by
    rw [h910]
    exact getBoundingBox_replicate (n + 9) p
  have hrr : radiusRatio (List.replicate (n + 10) p) = 1 := by
    rw [h910]
    exact radiusRatio_replicate (n + 9) p
  have har : areaRatio (List.replicate (n + 10) p) = 0 := by
    rw [h910]
    exact areaRatio_replicate (n + 9) p
  have hclosed : List.replicate (n + 10) p ++ [p] = List.replicate (n + 11) p := by
    have h11 : n + 11 = n + 10 + 1 := by omega
    conv_rhs => rw [h11, List.replicate_succ']
  have hres : resample (List.replicate (n + 11) p) 5 = [p] := by
    have h11 : n + 11 = n + 10 + 1 := by omega
    rw [h11]
    exact resample_replicate 5 (by norm_num) p (n + 10) (by omega)
  have hres' : resample (List.replicate (n + 10) p ++ [p]) 5 = [p] := by
    rw [hclosed]
    exact hres
  have hcc : dropWrap ([p] : List Point).length (filterAdjacent (getCorners [p])) = [] := by
    rw [getCorners_singleton]
    rfl
  have hgt : getTriangleVertices [p] = [p] := getTriangleVertices_short _ (by simp)
  refine ⟨getPathLength_replicate _ _, hres', hrr, har, ?_⟩
  unfold detectShape detectShapeState
  rw [if_neg (by simp)]
  simp only []
  rw [getPathLength_replicate, hdist, hhead, hbb, hclosed]
  have hsp : max (5 : ℝ) (Real.sqrt ((⟨p.x, p.y, 0, 0⟩ : BBox).width ^ 2 +
      (⟨p.x, p.y, 0, 0⟩ : BBox).height ^ 2) / 40) = 5 := by
    norm_num
  rw [hsp, hres, hcc, hrr, har, hgt]
  norm_num

/-- C4: for strokes past the line and closure gates whose cleaned corner
count is neither 3 nor 4, the fallback decides in order: 0 corners and
`radiusRatio < 0.25` → Circle; `radiusRatio < 0.20` → Circle;
`areaRatio > 0.80` → Square; `areaRatio < 0.65` → Triangle with vertices
from the Vertex Extractor over the resampled points; otherwise (including
exactly 5 corners) → Square — and the verdict is never None. -/
theorem detectShape_fallback_order (points : List Point)
    (h10 : ¬points.length < 10)
    (hline : ¬getPathLength points * 0.85 <
      distance (points.headD default) (points.getD (points.length - 1) default))
    (hgap : ¬getPathLength points * 0.3 <
      distance (points.headD default) (points.getD (points.length - 1) default))
    (resampled : List Point)
    (hres : resampled = resample (points ++ [points.headD default])
      (max 5 (Real.sqrt ((getBoundingBox points).width ^ 2 +
        (getBoundingBox points).height ^ 2) / 40)))
    (cornerCount : ℕ)
    (hcc : cornerCount = (dropWrap resampled.length
      (filterAdjacent (getCorners resampled))).length)
    (h3 : cornerCount ≠ 3) (h4 : cornerCount ≠ 4) :
    (cornerCount = 0 ∧ radiusRatio points < 0.25 →
      detectShape points = some ⟨ShapeType.CIRCLE, none⟩) ∧
    (¬(cornerCount = 0 ∧ radiusRatio points < 0.25) → radiusRatio points < 0.20 →
      detectShape points = some ⟨ShapeType.CIRCLE, none⟩) ∧
    (¬(cornerCount = 0 ∧ radiusRatio points < 0.25) → ¬radiusRatio points < 0.20 →
      0.80 < areaRatio points → detectShape points = some ⟨ShapeType.SQUARE, none⟩) ∧
    (¬(cornerCount = 0 ∧ radiusRatio points < 0.25) → ¬radiusRatio points < 0.20 →
      ¬0.80 < areaRatio points → areaRatio points < 0.65 →
      detectShape points = some ⟨ShapeType.TRIANGLE, some (getTriangleVertices resampled)⟩) ∧
    (¬(cornerCount = 0 ∧ radiusRatio points < 0.25) → ¬radiusRatio points < 0.20 →
      ¬0.80 < areaRatio points → ¬areaRatio points < 0.65 →
      detectShape points = some ⟨ShapeType.SQUARE, none⟩) ∧
    detectShape points ≠ none := by
  unfold detectShape detectShapeState
  rw [if_neg h10]
  simp only []
  rw [if_neg hline, if_neg hgap, ← hres, ← hcc, if_neg h3, if_neg h4]
  refine ⟨?_, ?_, ?_, ?_, ?_, ?_⟩
  · intro h1
    rw [if_pos h1]
  · intro hn1 h2
    rw [if_neg hn1, if_pos h2]
  · intro hn1 hn2 h3b
    rw [if_neg hn1, if_neg hn2, if_pos h3b]
  · intro hn1 hn2 hn3 h4b
    rw [if_neg hn1, if_neg hn2, if_neg hn3, if_pos h4b]
  · intro hn1 hn2 hn3 hn4
    rw [if_neg hn1, if_neg hn2, if_neg hn3, if_neg hn4]
    split <;> rfl
  · split_ifs <;> simp

/-- Witness for C4 at the degenerate 10-copies stroke: corner count 0,
`radiusRatio = 1`, `areaRatio = 0`, landing in the `areaRatio < 0.65`
branch (Triangle via the Vertex Extractor). -/
theorem detectShape_fallback_order_witness :
    detectShape (List.replicate 10 (⟨0, 0⟩ : Point)) =
      some ⟨ShapeType.TRIANGLE, some [⟨0, 0⟩]⟩ := by
  have hrr : radiusRatio (List.replicate 10 (⟨0, 0⟩ : Point)) = 1 :=
    radiusRatio_replicate 9 ⟨0, 0⟩
  have har : areaRatio (List.replicate 10 (⟨0, 0⟩ : Point)) = 0 :=
    areaRatio_replicate 9 ⟨0, 0⟩
  have hbb : getBoundingBox (List.replicate 10 (⟨0, 0⟩ : Point)) = ⟨0, 0, 0, 0⟩ :=
    getBoundingBox_replicate 9 ⟨0, 0⟩
  have hlen : getPathLength (List.replicate 10 (⟨0, 0⟩ : Point)) = 0 :=
    getPathLength_replicate 10 ⟨0, 0⟩
  have hdist : distance ((List.replicate 10 (⟨0, 0⟩ : Point)).headD default)
      ((List.replicate 10 (⟨0, 0⟩ : Point)).getD
        ((List.replicate 10 (⟨0, 0⟩ : Point)).length - 1) default) = 0 := by
    show distance ⟨0, 0⟩ ⟨0, 0⟩ = 0
    exact distance_self _
  have hres : ([(⟨0, 0⟩ : Point)]) = resample
      (List.replicate 10 (⟨0, 0⟩ : Point) ++ [(List.replicate 10 (⟨0, 0⟩ : Point)).headD default])
      (max 5 (Real.sqrt ((getBoundingBox (List.replicate 10 (⟨0, 0⟩ : Point))).width ^ 2 +
        (getBoundingBox (List.replicate 10 (⟨0, 0⟩ : Point))).height ^ 2) / 40)) := by
    rw [hbb]
    have hsp : max (5 : ℝ) (Real.sqrt ((⟨(0 : ℝ), 0, 0, 0⟩ : BBox).width ^ 2 +
        (⟨(0 : ℝ), 0, 0, 0⟩ : BBox).height ^ 2) / 40) = 5 := by
      norm_num
    rw [hsp]
    have hcl : List.replicate 10 (⟨0, 0⟩ : Point) ++
        [(List.replicate 10 (⟨0, 0⟩ : Point)).headD default] =
        List.replicate 11 (⟨0, 0⟩ : Point) := rfl
    rw [hcl]
    exact (resample_replicate 5 (by norm_num) ⟨0, 0⟩ 10 (by omega)).symm
  have hcc : (0 : ℕ) = (dropWrap ([(⟨0, 0⟩ : Point)]).length
      (filterAdjacent (getCorners [(⟨0, 0⟩ : Point)]))).length := by
    rw [getCorners_singleton]
    rfl
  have hmain := (detectShape_fallback_order (List.replicate 10 (⟨0, 0⟩ : Point))
    (by simp) (by rw [hlen, hdist]; norm_num) (by rw [hlen, hdist]; norm_num)
    [(⟨0, 0⟩ : Point)] hres 0 hcc (by omega) (by omega)).2.2.2.1
    (by rw [hrr]; rintro ⟨-, hlt⟩; norm_num at hlt)
    (by rw [hrr]; norm_num) (by rw [har]; norm_num) (by rw [har]; norm_num)
  rw [hmain]
  rfl

/-- C3: for every stroke past the line and closure gates, with the loop
closed by appending the first point, resampled at
`max 5 (boundingBoxDiagonal / 40)`, corner-detected, and cleaned
(`filterAdjacent` then `dropWrap`): exactly 3 cleaned corners yields
Triangle carrying the 3 resampled corner points, and exactly 4 yields
Square. -/
theorem detectShape_corner_classification (points : List Point)
    (h10 : ¬points.length < 10)
    (hline : ¬getPathLength points * 0.85 <
      distance (points.headD default) (points.getD (points.length - 1) default))
    (hgap : ¬getPathLength points * 0.3 <
      distance (points.headD default) (points.getD (points.length - 1) default))
    (resampled : List Point)
    (hres : resampled = resample (points ++ [points.headD default])
      (max 5 (Real.sqrt ((getBoundingBox points).width ^ 2 +
        (getBoundingBox points).height ^ 2) / 40)))
    (cleanCorners : List ℕ)
    (hclean : cleanCorners = dropWrap resampled.length
      (filterAdjacent (getCorners resampled))) :
    (cleanCorners.length = 3 → detectShape points = some ⟨ShapeType.TRIANGLE,
      some (cleanCorners.map (fun i => resampled.getD i default))⟩) ∧
    (cleanCorners.length = 4 → detectShape points = some ⟨ShapeType.SQUARE, none⟩) := by
  unfold detectShape detectShapeState
  rw [if_neg h10]
  simp only []
  rw [if_neg hline, if_neg hgap, ← hres, ← hclean]
  constructor
  · intro h3
    rw [if_pos h3]
  · intro h4
    rw [if_neg (by omega), if_pos h4]

/-! ## Straw values on the concrete square loop -/

theorem sqrt_900 : Real.sqrt 900 = 30 := sqrt_of_sq (by norm_num) (by norm_num)

theorem sqrt450_lt_sqrt500 : Real.sqrt 450 < Real.sqrt 500 :=
  (Real.sqrt_lt_sqrt_iff (by norm_num)).mpr (by norm_num)

theorem sqrt500_lt_sqrt650 : Real.sqrt 500 < Real.sqrt 650 :=
  (Real.sqrt_lt_sqrt_iff (by norm_num)).mpr (by norm_num)

theorem sqrt650_lt_30 : Real.sqrt 650 < 30 := by
  rw [Real.sqrt_lt' (by norm_num)]
  norm_num

theorem sqrt450_lt_285 : Real.sqrt 450 < 28.5 := by
  rw [Real.sqrt_lt' (by norm_num)]
  norm_num

theorem not_sqrt500_lt_sqrt450 : ¬Real.sqrt 500 < Real.sqrt 450 :=
  not_lt.mpr (Real.sqrt_le_sqrt (by norm_num))

theorem not_sqrt650_lt_sqrt500 : ¬Real.sqrt 650 < Real.sqrt 500 :=
  not_lt.mpr (Real.sqrt_le_sqrt (by norm_num))

theorem not_30_lt_sqrt650 : ¬(30 : ℝ) < Real.sqrt 650 :=
  not_lt.mpr sqrt650_lt_30.le

theorem strawLoop_3 : straws squareLoop 3 = Real.sqrt 500 := by
  show distance ⟨20, 0⟩ ⟨40, 10⟩ = Real.sqrt 500
  norm_num [distance_mk]

theorem strawLoop_4 : straws squareLoop 4 = Real.sqrt 450 := by
  show distance ⟨25, 0⟩ ⟨40, 15⟩ = Real.sqrt 450
  norm_num [distance_mk]

theorem strawLoop_5 : straws squareLoop 5 = Real.sqrt 500 := by
  show distance ⟨30, 0⟩ ⟨40, 20⟩ = Real.sqrt 500
  norm_num [distance_mk]

theorem strawLoop_6 : straws squareLoop 6 = Real.sqrt 650 := by
  show distance ⟨35, 0⟩ ⟨40, 25⟩ = Real.sqrt 650
  norm_num [distance_mk]

theorem strawLoop_7 : straws squareLoop 7 = (30 : ℝ) := by
  show distance ⟨40, 0⟩ ⟨40, 30⟩ = (30 : ℝ)
  norm_num [distance_mk, sqrt_900]

theorem strawLoop_8 : straws squareLoop 8 = (30 : ℝ) := by
  show distance ⟨40, 5⟩ ⟨40, 35⟩ = (30 : ℝ)
  norm_num [distance_mk, sqrt_900]

theorem strawLoop_9 : straws squareLoop 9 = (30 : ℝ) := by
  show distance ⟨40, 10⟩ ⟨40, 40⟩ = (30 : ℝ)
  norm_num [distance_mk, sqrt_900]

theorem strawLoop_10 : straws squareLoop 10 = Real.sqrt 650 := by
  show distance ⟨40, 15⟩ ⟨35, 40⟩ = Real.sqrt 650
  norm_num [distance_mk]

theorem strawLoop_11 : straws squareLoop 11 = Real.sqrt 500 := by
  show distance ⟨40, 20⟩ ⟨30, 40⟩ = Real.sqrt 500
  norm_num [distance_mk]

theorem strawLoop_12 : straws squareLoop 12 = Real.sqrt 450 := by
  show distance ⟨40, 25⟩ ⟨25, 40⟩ = Real.sqrt 450
  norm_num [distance_mk]

theorem strawLoop_13 : straws squareLoop 13 = Real.sqrt 500 := by
  show distance ⟨40, 30⟩ ⟨20, 40⟩ = Real.sqrt 500
  norm_num [distance_mk]

theorem strawLoop_14 : straws squareLoop 14 = Real.sqrt 650 := by
  show distance ⟨40, 35⟩ ⟨15, 40⟩ = Real.sqrt 650
  norm_num [distance_mk]

theorem strawLoop_15 : straws squareLoop 15 = (30 : ℝ) := by
  show distance ⟨40, 40⟩ ⟨10, 40⟩ = (30 : ℝ)
  norm_num [distance_mk, sqrt_900]

theorem strawLoop_16 : straws squareLoop 16 = (30 : ℝ) := by
  show distance ⟨35, 40⟩ ⟨5, 40⟩ = (30 : ℝ)
  norm_num [distance_mk, sqrt_900]

theorem strawLoop_17 : straws squareLoop 17 = (30 : ℝ) := by
  show distance ⟨30, 40⟩ ⟨0, 40⟩ = (30 : ℝ)
  norm_num [distance_mk, sqrt_900]

theorem strawLoop_18 : straws squareLoop 18 = Real.sqrt 650 := by
  show distance ⟨25, 40⟩ ⟨0, 35⟩ = Real.sqrt 650
  norm_num [distance_mk]

theorem strawLoop_19 : straws squareLoop 19 = Real.sqrt 500 := by
  show distance ⟨20, 40⟩ ⟨0, 30⟩ = Real.sqrt 500
  norm_num [distance_mk]

theorem strawLoop_20 : straws squareLoop 20 = Real.sqrt 450 := by
  show distance ⟨15, 40⟩ ⟨0, 25⟩ = Real.sqrt 450
  norm_num [distance_mk]

theorem strawLoop_21 : straws squareLoop 21 = Real.sqrt 500 := by
  show distance ⟨10, 40⟩ ⟨0, 20⟩ = Real.sqrt 500
  norm_num [distance_mk]

theorem strawLoop_22 : straws squareLoop 22 = Real.sqrt 650 := by
  show distance ⟨5, 40⟩ ⟨0, 15⟩ = Real.sqrt 650
  norm_num [distance_mk]

theorem strawLoop_23 : straws squareLoop 23 = (30 : ℝ) := by
  show distance ⟨0, 40⟩ ⟨0, 10⟩ = (30 : ℝ)
  norm_num [distance_mk, sqrt_900]

theorem strawLoop_24 : straws squareLoop 24 = (30 : ℝ) := by
  show distance ⟨0, 35⟩ ⟨0, 5⟩ = (30 : ℝ)
  norm_num [distance_mk, sqrt_900]

theorem strawLoop_25 : straws squareLoop 25 = (30 : ℝ) := by
  show distance ⟨0, 30⟩ ⟨0, 0⟩ = (30 : ℝ)
  norm_num [distance_mk, sqrt_900]

theorem strawLoop_26 : straws squareLoop 26 = Real.sqrt 650 := by
  show distance ⟨0, 25⟩ ⟨5, 0⟩ = Real.sqrt 650
  norm_num [distance_mk]

theorem strawLoop_27 : straws squareLoop 27 = Real.sqrt 500 := by
  show distance ⟨0, 20⟩ ⟨10, 0⟩ = Real.sqrt 500
  norm_num [distance_mk]

theorem strawLoop_28 : straws squareLoop 28 = Real.sqrt 450 := by
  show distance ⟨0, 15⟩ ⟨15, 0⟩ = Real.sqrt 450
  norm_num [distance_mk]

theorem strawLoop_29 : straws squareLoop 29 = Real.sqrt 500 := by
  show distance ⟨0, 10⟩ ⟨20, 0⟩ = Real.sqrt 500
  norm_num [distance_mk]

theorem minCond_4 : decide (straws squareLoop 4 < straws squareLoop 3 ∧
    straws squareLoop 4 < straws squareLoop 5) = true :=
  decide_eq_true ⟨by rw [strawLoop_4, strawLoop_3]; exact sqrt450_lt_sqrt500,
    by rw [strawLoop_4, strawLoop_5]; exact sqrt450_lt_sqrt500⟩

theorem minCond_5 : decide (straws squareLoop 5 < straws squareLoop 4 ∧
    straws squareLoop 5 < straws squareLoop 6) = false :=
  decide_eq_false (fun h => absurd h.1
    (by rw [strawLoop_5, strawLoop_4]; exact not_sqrt500_lt_sqrt450))

theorem minCond_6 : decide (straws squareLoop 6 < straws squareLoop 5 ∧
    straws squareLoop 6 < straws squareLoop 7) = false :=
  decide_eq_false (fun h => absurd h.1
    (by rw [strawLoop_6, strawLoop_5]; exact not_sqrt650_lt_sqrt500))

theorem minCond_7 : decide (straws squareLoop 7 < straws squareLoop 6 ∧
    straws squareLoop 7 < straws squareLoop 8) = false :=
  decide_eq_false (fun h => absurd h.1
    (by rw [strawLoop_7, strawLoop_6]; exact not_30_lt_sqrt650))

theorem minCond_8 : decide (straws squareLoop 8 < straws squareLoop 7 ∧
    straws squareLoop 8 < straws squareLoop 9) = false :=
  decide_eq_false (fun h => absurd h.1
    (by rw [strawLoop_8, strawLoop_7]; exact lt_irrefl (30 : ℝ)))

theorem minCond_9 : decide (straws squareLoop 9 < straws squareLoop 8 ∧
    straws squareLoop 9 < straws squareLoop 10) = false :=
  decide_eq_false (fun h => absurd h.1
    (by rw [strawLoop_9, strawLoop_8]; exact lt_irrefl (30 : ℝ)))

theorem minCond_10 : decide (straws squareLoop 10 < straws squareLoop 9 ∧
    straws squareLoop 10 < straws squareLoop 11) = false :=
  decide_eq_false (fun h => absurd h.2
    (by rw [strawLoop_10, strawLoop_11]; exact not_sqrt650_lt_sqrt500))

theorem minCond_11 : decide (straws squareLoop 11 < straws squareLoop 10 ∧
    straws squareLoop 11 < straws squareLoop 12) = false :=
  decide_eq_false (fun h => absurd h.2
    (by rw [strawLoop_11, strawLoop_12]; exact not_sqrt500_lt_sqrt450))

theorem minCond_12 : decide (straws squareLoop 12 < straws squareLoop 11 ∧
    straws squareLoop 12 < straws squareLoop 13) = true :=
  decide_eq_true ⟨by rw [strawLoop_12, strawLoop_11]; exact sqrt450_lt_sqrt500,
    by rw [strawLoop_12, strawLoop_13]; exact sqrt450_lt_sqrt500⟩

theorem minCond_13 : decide (straws squareLoop 13 < straws squareLoop 12 ∧
    straws squareLoop 13 < straws squareLoop 14) = false :=
  decide_eq_false (fun h => absurd h.1
    (by rw [strawLoop_13, strawLoop_12]; exact not_sqrt500_lt_sqrt450))

theorem minCond_14 : decide (straws squareLoop 14 < straws squareLoop 13 ∧
    straws squareLoop 14 < straws squareLoop 15) = false :=
  decide_eq_false (fun h => absurd h.1
    (by rw [strawLoop_14, strawLoop_13]; exact not_sqrt650_lt_sqrt500))

theorem minCond_15 : decide (straws squareLoop 15 < straws squareLoop 14 ∧
    straws squareLoop 15 < straws squareLoop 16) = false :=
  decide_eq_false (fun h => absurd h.1
    (by rw [strawLoop_15, strawLoop_14]; exact not_30_lt_sqrt650))

theorem minCond_16 : decide (straws squareLoop 16 < straws squareLoop 15 ∧
    straws squareLoop 16 < straws squareLoop 17) = false :=
  decide_eq_false (fun h => absurd h.1
    (by rw [strawLoop_16, strawLoop_15]; exact lt_irrefl (30 : ℝ)))

theorem minCond_17 : decide (straws squareLoop 17 < straws squareLoop 16 ∧
    straws squareLoop 17 < straws squareLoop 18) = false :=
  decide_eq_false (fun h => absurd h.1
    (by rw [strawLoop_17, strawLoop_16]; exact lt_irrefl (30 : ℝ)))

theorem minCond_18 : decide (straws squareLoop 18 < straws squareLoop 17 ∧
    straws squareLoop 18 < straws squareLoop 19) = false :=
  decide_eq_false (fun h => absurd h.2
    (by rw [strawLoop_18, strawLoop_19]; exact not_sqrt650_lt_sqrt500))

theorem minCond_19 : decide (straws squareLoop 19 < straws squareLoop 18 ∧
    straws squareLoop 19 < straws squareLoop 20) = false :=
  decide_eq_false (fun h => absurd h.2
    (by rw [strawLoop_19, strawLoop_20]; exact not_sqrt500_lt_sqrt450))

theorem minCond_20 : decide (straws squareLoop 20 < straws squareLoop 19 ∧
    straws squareLoop 20 < straws squareLoop 21) = true :=
  decide_eq_true ⟨by rw [strawLoop_20, strawLoop_19]; exact sqrt450_lt_sqrt500,
    by rw [strawLoop_20, strawLoop_21]; exact sqrt450_lt_sqrt500⟩

theorem minCond_21 : decide (straws squareLoop 21 < straws squareLoop 20 ∧
    straws squareLoop 21 < straws squareLoop 22) = false :=
  decide_eq_false (fun h => absurd h.1
    (by rw [strawLoop_21, strawLoop_20]; exact not_sqrt500_lt_sqrt450))

theorem minCond_22 : decide (straws squareLoop 22 < straws squareLoop 21 ∧
    straws squareLoop 22 < straws squareLoop 23) = false :=
  decide_eq_false (fun h => absurd h.1
    (by rw [strawLoop_22, strawLoop_21]; exact not_sqrt650_lt_sqrt500))

theorem minCond_23 : decide (straws squareLoop 23 < straws squareLoop 22 ∧
    straws squareLoop 23 < straws squareLoop 24) = false :=
  decide_eq_false (fun h => absurd h.1
    (by rw [strawLoop_23, strawLoop_22]; exact not_30_lt_sqrt650))

theorem minCond_24 : decide (straws squareLoop 24 < straws squareLoop 23 ∧
    straws squareLoop 24 < straws squareLoop 25) = false :=
  decide_eq_false (fun h => absurd h.1
    (by rw [strawLoop_24, strawLoop_23]; exact lt_irrefl (30 : ℝ)))

theorem minCond_25 : decide (straws squareLoop 25 < straws squareLoop 24 ∧
    straws squareLoop 25 < straws squareLoop 26) = false :=
  decide_eq_false (fun h => absurd h.1
    (by rw [strawLoop_25, strawLoop_24]; exact lt_irrefl (30 : ℝ)))

theorem minCond_26 : decide (straws squareLoop 26 < straws squareLoop 25 ∧
    straws squareLoop 26 < straws squareLoop 27) = false :=
  decide_eq_false (fun h => absurd h.2
    (by rw [strawLoop_26, strawLoop_27]; exact not_sqrt650_lt_sqrt500))

theorem minCond_27 : decide (straws squareLoop 27 < straws squareLoop 26 ∧
    straws squareLoop 27 < straws squareLoop 28) = false :=
  decide_eq_false (fun h => absurd h.2
    (by rw [strawLoop_27, strawLoop_28]; exact not_sqrt500_lt_sqrt450))

theorem minCond_28 : decide (straws squareLoop 28 < straws squareLoop 27 ∧
    straws squareLoop 28 < straws squareLoop 29) = true :=
  decide_eq_true ⟨by rw [strawLoop_28, strawLoop_27]; exact sqrt450_lt_sqrt500,
    by rw [strawLoop_28, strawLoop_29]; exact sqrt450_lt_sqrt500⟩

theorem pathLength_squareLoop : getPathLength squareLoop = 160 := by
  norm_num [squareLoop, getPathLength, distance_mk, sqrt_25]

theorem length_squareLoop_real : ((squareLoop.length : ℕ) : ℝ) = 33 := by
  norm_num [squareLoop]

theorem threshCond_4 : decide (straws squareLoop 4 <
    2 * 3 * (getPathLength squareLoop / ((squareLoop.length : ℝ) - 1)) * 0.95) = true :=
  decide_eq_true (by
    rw [strawLoop_4, pathLength_squareLoop, length_squareLoop_real]
    have h2 : (2 : ℝ) * 3 * (160 / (33 - 1)) * 0.95 = 28.5 := by norm_num
    rw [h2]
    exact sqrt450_lt_285)

theorem threshCond_12 : decide (straws squareLoop 12 <
    2 * 3 * (getPathLength squareLoop / ((squareLoop.length : ℝ) - 1)) * 0.95) = true :=
  decide_eq_true (by
    rw [strawLoop_12, pathLength_squareLoop, length_squareLoop_real]
    have h2 : (2 : ℝ) * 3 * (160 / (33 - 1)) * 0.95 = 28.5 := by norm_num
    rw [h2]
    exact sqrt450_lt_285)

theorem threshCond_20 : decide (straws squareLoop 20 <
    2 * 3 * (getPathLength squareLoop / ((squareLoop.length : ℝ) - 1)) * 0.95) = true :=
  decide_eq_true (by
    rw [strawLoop_20, pathLength_squareLoop, length_squareLoop_real]
    have h2 : (2 : ℝ) * 3 * (160 / (33 - 1)) * 0.95 = 28.5 := by norm_num
    rw [h2]
    exact sqrt450_lt_285)

theorem threshCond_28 : decide (straws squareLoop 28 <
    2 * 3 * (getPathLength squareLoop / ((squareLoop.length : ℝ) - 1)) * 0.95) = true :=
  decide_eq_true (by
    rw [strawLoop_28, pathLength_squareLoop, length_squareLoop_real]
    have h2 : (2 : ℝ) * 3 * (160 / (33 - 1)) * 0.95 = 28.5 := by norm_num
    rw [h2]
    exact sqrt450_lt_285)


theorem minCondP_4 : straws squareLoop 4 < straws squareLoop 3 ∧
    straws squareLoop 4 < straws squareLoop 5 := of_decide_eq_true minCond_4

theorem minCondP_5 : ¬(straws squareLoop 5 < straws squareLoop 4 ∧
    straws squareLoop 5 < straws squareLoop 6) := of_decide_eq_false minCond_5

theorem minCondP_6 : ¬(straws squareLoop 6 < straws squareLoop 5 ∧
    straws squareLoop 6 < straws squareLoop 7) := of_decide_eq_false minCond_6

theorem minCondP_7 : ¬(straws squareLoop 7 < straws squareLoop 6 ∧
    straws squareLoop 7 < straws squareLoop 8) := of_decide_eq_false minCond_7

theorem minCondP_8 : ¬(straws squareLoop 8 < straws squareLoop 7 ∧
    straws squareLoop 8 < straws squareLoop 9) := of_decide_eq_false minCond_8

theorem minCondP_9 : ¬(straws squareLoop 9 < straws squareLoop 8 ∧
    straws squareLoop 9 < straws squareLoop 10) := of_decide_eq_false minCond_9

theorem minCondP_10 : ¬(straws squareLoop 10 < straws squareLoop 9 ∧
    straws squareLoop 10 < straws squareLoop 11) := of_decide_eq_false minCond_10

theorem minCondP_11 : ¬(straws squareLoop 11 < straws squareLoop 10 ∧
    straws squareLoop 11 < straws squareLoop 12) := of_decide_eq_false minCond_11

theorem minCondP_12 : straws squareLoop 12 < straws squareLoop 11 ∧
    straws squareLoop 12 < straws squareLoop 13 := of_decide_eq_true minCond_12

theorem minCondP_13 : ¬(straws squareLoop 13 < straws squareLoop 12 ∧
    straws squareLoop 13 < straws squareLoop 14) := of_decide_eq_false minCond_13

theorem minCondP_14 : ¬(straws squareLoop 14 < straws squareLoop 13 ∧
    straws squareLoop 14 < straws squareLoop 15) := of_decide_eq_false minCond_14

theorem minCondP_15 : ¬(straws squareLoop 15 < straws squareLoop 14 ∧
    straws squareLoop 15 < straws squareLoop 16) := of_decide_eq_false minCond_15

theorem minCondP_16 : ¬(straws squareLoop 16 < straws squareLoop 15 ∧
    straws squareLoop 16 < straws squareLoop 17) := of_decide_eq_false minCond_16

theorem minCondP_17 : ¬(straws squareLoop 17 < straws squareLoop 16 ∧
    straws squareLoop 17 < straws squareLoop 18) := of_decide_eq_false minCond_17

theorem minCondP_18 : ¬(straws squareLoop 18 < straws squareLoop 17 ∧
    straws squareLoop 18 < straws squareLoop 19) := of_decide_eq_false minCond_18

theorem minCondP_19 : ¬(straws squareLoop 19 < straws squareLoop 18 ∧
    straws squareLoop 19 < straws squareLoop 20) := of_decide_eq_false minCond_19

theorem minCondP_20 : straws squareLoop 20 < straws squareLoop 19 ∧
    straws squareLoop 20 < straws squareLoop 21 := of_decide_eq_true minCond_20

theorem minCondP_21 : ¬(straws squareLoop 21 < straws squareLoop 20 ∧
    straws squareLoop 21 < straws squareLoop 22) := of_decide_eq_false minCond_21

theorem minCondP_22 : ¬(straws squareLoop 22 < straws squareLoop 21 ∧
    straws squareLoop 22 < straws squareLoop 23) := of_decide_eq_false minCond_22

theorem minCondP_23 : ¬(straws squareLoop 23 < straws squareLoop 22 ∧
    straws squareLoop 23 < straws squareLoop 24) := of_decide_eq_false minCond_23

theorem minCondP_24 : ¬(straws squareLoop 24 < straws squareLoop 23 ∧
    straws squareLoop 24 < straws squareLoop 25) := of_decide_eq_false minCond_24

theorem minCondP_25 : ¬(straws squareLoop 25 < straws squareLoop 24 ∧
    straws squareLoop 25 < straws squareLoop 26) := of_decide_eq_false minCond_25

theorem minCondP_26 : ¬(straws squareLoop 26 < straws squareLoop 25 ∧
    straws squareLoop 26 < straws squareLoop 27) := of_decide_eq_false minCond_26

theorem minCondP_27 : ¬(straws squareLoop 27 < straws squareLoop 26 ∧
    straws squareLoop 27 < straws squareLoop 28) := of_decide_eq_false minCond_27

theorem minCondP_28 : straws squareLoop 28 < straws squareLoop 27 ∧
    straws squareLoop 28 < straws squareLoop 29 := of_decide_eq_true minCond_28

theorem threshCondP_4 : straws squareLoop 4 <
    2 * 3 * (getPathLength squareLoop / ((squareLoop.length : ℝ) - 1)) * 0.95 :=
  of_decide_eq_true threshCond_4

theorem threshCondP_12 : straws squareLoop 12 <
    2 * 3 * (getPathLength squareLoop / ((squareLoop.length : ℝ) - 1)) * 0.95 :=
  of_decide_eq_true threshCond_12

theorem threshCondP_20 : straws squareLoop 20 <
    2 * 3 * (getPathLength squareLoop / ((squareLoop.length : ℝ) - 1)) * 0.95 :=
  of_decide_eq_true threshCond_20

theorem threshCondP_28 : straws squareLoop 28 <
    2 * 3 * (getPathLength squareLoop / ((squareLoop.length : ℝ) - 1)) * 0.95 :=
  of_decide_eq_true threshCond_28


theorem chain_squareLoop :
    List.Chain' (fun a b => distance a b = 5) squareLoop := by
  norm_num [squareLoop, List.chain'_cons, distance_mk, sqrt_25]

theorem resample_squareLoop : resample squareLoop 5 = squareLoop :=
  resample_uniform 5 (by norm_num) _ _ (by norm_num [squareLoop]) chain_squareLoop

theorem getCorners_squareLoop : getCorners squareLoop = [4, 12, 20, 28] := by
  have hrange : List.range' 4 (squareLoop.length - 8) =
      [4, 5, 6, 7, 8, 9, 10, 11, 12, 13, 14, 15, 16, 17, 18, 19, 20, 21, 22, 23,
       24, 25, 26, 27, 28] := rfl
  unfold getCorners
  rw [if_neg (by norm_num [squareLoop])]
  simp only []
  rw [hrange]
  simp [List.filter_cons, minCondP_4, minCondP_5, minCondP_6, minCondP_7, minCondP_8,
    minCondP_9, minCondP_10, minCondP_11, minCondP_12, minCondP_13, minCondP_14,
    minCondP_15, minCondP_16, minCondP_17, minCondP_18, minCondP_19, minCondP_20,
    minCondP_21, minCondP_22, minCondP_23, minCondP_24, minCondP_25, minCondP_26,
    minCondP_27, minCondP_28, threshCondP_4, threshCondP_12, threshCondP_20,
    threshCondP_28]

theorem pathLength_squareStroke : getPathLength squareStroke = 155 := by
  norm_num [squareStroke, getPathLength, distance_mk, sqrt_25]

theorem boundingBox_squareStroke : getBoundingBox squareStroke = ⟨0, 0, 40, 40⟩ := by
  norm_num [squareStroke, getBoundingBox, min_def, max_def]

/-- Witness for C3: the square trace classifies as Square via exactly 4
cleaned corners (indices 4, 12, 20, 28 of the resampled loop). -/
theorem detectShape_corner_classification_witness :
    detectShape squareStroke = some ⟨ShapeType.SQUARE, none⟩ := by
  have hd5 : distance (squareStroke.headD default)
      (squareStroke.getD (squareStroke.length - 1) default) = 5 := by
    show distance ⟨20, 0⟩ ⟨15, 0⟩ = 5
    norm_num [distance_mk, sqrt_25]
  have happend : squareStroke ++ [squareStroke.headD default] = squareLoop := rfl
  have hsp : max (5 : ℝ) (Real.sqrt (((⟨0, 0, 40, 40⟩ : BBox)).width ^ 2 +
      ((⟨0, 0, 40, 40⟩ : BBox)).height ^ 2) / 40) = 5 := by
    have h32 : Real.sqrt (((⟨0, 0, 40, 40⟩ : BBox)).width ^ 2 +
        ((⟨0, 0, 40, 40⟩ : BBox)).height ^ 2) = Real.sqrt 3200 := by
      norm_num
    rw [h32]
    have hlt : Real.sqrt 3200 < 200 := by
      rw [Real.sqrt_lt' (by norm_num)]
      norm_num
    apply max_eq_left
    linarith
  have hres : squareLoop = resample (squareStroke ++ [squareStroke.headD default])
      (max 5 (Real.sqrt ((getBoundingBox squareStroke).width ^ 2 +
        (getBoundingBox squareStroke).height ^ 2) / 40)) := by
    rw [happend, boundingBox_squareStroke, hsp, resample_squareLoop]
  have hclean : ([4, 12, 20, 28] : List ℕ) = dropWrap squareLoop.length
      (filterAdjacent (getCorners squareLoop)) := by
    rw [getCorners_squareLoop]
    rfl
  exact (detectShape_corner_classification squareStroke
    (by norm_num [squareStroke])
    (by rw [pathLength_squareStroke, hd5]; norm_num)
    (by rw [pathLength_squareStroke, hd5]; norm_num)
    squareLoop hres [4, 12, 20, 28] hclean).2 rfl
